import Mathlib

/-!
Shallow embedding of the desired-state builder, identity resolution and
reconciliation logic of the UMTK repository (src/umtk), together with
theorems settling the specification claims.

Conventions of the embedding:
* `DateTime` is minutes since an arbitrary epoch (`Int`); Python `datetime`
  comparison is a total order, so `Int` comparison is faithful.  A day is
  1440 minutes.  The configured `utc_offset` (hours, possibly fractional)
  is carried as a whole number of minutes.
* Missing dictionary keys become `Option.none`; a Python `dict.get(k, d)`
  becomes `Option.getD`.  Python string truthiness (empty string falsy) and
  integer truthiness (0 falsy) are modelled explicitly at each use site.
* Upstream HTTP fetches (`get_sonarr_episodes`) are an oracle
  `Nat → Except Unit (List Episode)`; `Except.error ()` models a raised
  `requests.exceptions.RequestException`.
* Strings are treated as ASCII, which covers every regular expression and
  lowering operation the source applies to titles.
-/

namespace UMTK

/-- Minutes since epoch; the embedding of a Python `datetime`. -/
abbrev DateTime := Int

/-- Minutes per day, for `timedelta(days=n)`. -/
def minutesPerDay : Int := 1440

/-- One episode record as returned by the TV tracker
(`get_sonarr_episodes`).  Each field mirrors the dictionary key of the same
name; `none` is a missing key. -/
structure Episode where
  seasonNumber : Option Int
  episodeNumber : Option Int
  monitored : Option Bool
  hasFile : Option Bool
  airDateUtc : Option DateTime
deriving Repr, DecidableEq

/-- One series record from the TV tracker catalog. -/
structure Series where
  id : Nat
  title : String
  monitored : Option Bool
  tags : List Int
  tvdbId : Option Int
  tmdbId : Option Int
  imdbId : Option String
  path : Option String
  year : Option Int
deriving Repr, DecidableEq

/-- One movie record from the movie tracker catalog. -/
structure Movie where
  title : String
  monitored : Option Bool
  hasFile : Option Bool
  tags : List Int
  tmdbId : Option Int
  imdbId : Option String
  digitalRelease : Option DateTime
  physicalRelease : Option DateTime
  inCinemas : Option DateTime
  path : Option String
  folderName : Option String
  year : Option Int
deriving Repr, DecidableEq

/-- One entry of the external trending list (`fetch_mdblist_items`).
`imdbId` carries the `item.get('imdb_id', '')` default already applied, as
in the source. -/
structure TrendItem where
  tvdbId : Option Int
  tmdbId : Option Int
  imdbId : String
  title : String
  year : Option Int
  rank : Option Int
deriving Repr, DecidableEq

/-- `utils.convert_utc_to_local`: shift a UTC datetime by the configured
offset (`timedelta(hours=utc_offset)`, carried here in minutes). -/
def convertUtcToLocal (d : DateTime) (utcOffsetMin : Int) : DateTime :=
  d + utcOffsetMin

/-- `datetime.date()` of a datetime measured in minutes: the day index,
flooring (the source stores `air_date.date().isoformat()`). -/
def dateOf (d : DateTime) : Int :=
  d.fdiv minutesPerDay

/-- The dictionary built for each qualifying show
(`finders.find_upcoming_shows` / `find_new_shows` / `process_trending_tv`).
`airDate` is the day index of the local air date (`none` for trending
entries, which store Python `None`). -/
structure ShowDict where
  title : String
  tvdbId : Option Int
  tmdbId : Option Int := none
  path : Option String
  imdbId : Option String
  year : Option Int
  airDate : Option Int
  rank : Option Int := none
deriving Repr, DecidableEq

/-- The dictionary built for each qualifying movie
(`finders.find_upcoming_movies` / `process_trending_movies`). -/
structure MovieDict where
  title : String
  tmdbId : Option Int
  imdbId : Option String
  path : Option String
  folderName : Option String
  year : Option Int
  releaseDate : Option Int
  releaseType : String
  rank : Option Int := none
deriving Repr, DecidableEq

/-- The parameters of `find_upcoming_shows`, together with the `now`
snapshot (`datetime.now(timezone.utc)`). -/
structure ShowsCfg where
  futureDays : Int
  utcOffsetMin : Int
  excludeTags : List Int
  futureOnlyTv : Bool
  now : DateTime
deriving Repr, DecidableEq

/-- The oracle standing in for `get_sonarr_episodes`; `Except.error ()` is
a raised request exception. -/
abbrev EpisodeFetch := Nat → Except Unit (List Episode)

/-- The loop body of `find_upcoming_shows` for one series.  Returns
`none` when the series is skipped, `some (true, d)` when `d` is appended
to `future_shows` and `some (false, d)` when appended to `aired_shows`. -/
def stepUpcomingShow (fetch : EpisodeFetch) (cfg : ShowsCfg) (series : Series) :
    Except Unit (Option (Bool × ShowDict)) :=
  -- `if not series.get('monitored', True): continue`
  if !(series.monitored.getD true) then .ok none
  -- `if exclude_tags: if any(tag in series_tags for tag in exclude_tags): continue`
  else if cfg.excludeTags.any (fun tag => series.tags.contains tag) then .ok none
  else do
    let episodes ← fetch series.id
    -- first episode: `seasonNumber == 1 and episodeNumber == 1`, first hit
    match episodes.find? (fun ep =>
        ep.seasonNumber == some 1 && ep.episodeNumber == some 1) with
    | none => pure none
    | some firstEpisode =>
      if !(firstEpisode.monitored.getD false) then pure none
      else if firstEpisode.hasFile.getD false then pure none
      else match firstEpisode.airDateUtc with
      | none => pure none
      | some airUtc =>
        let airDate := convertUtcToLocal airUtc cfg.utcOffsetMin
        -- `cutoff_date = datetime.now(timezone.utc) + timedelta(days=future_days_upcoming_shows)`
        let cutoffDate := cfg.now + cfg.futureDays * minutesPerDay
        -- `now_local = datetime.now(timezone.utc) + timedelta(hours=utc_offset)`
        let nowLocal := cfg.now + cfg.utcOffsetMin
        if airDate ≤ cutoffDate then
          let showDict : ShowDict :=
            { title := series.title
              tvdbId := series.tvdbId
              path := some (series.path.getD "")
              imdbId := some (series.imdbId.getD "")
              year := series.year
              airDate := some (dateOf airDate) }
          if airDate ≥ nowLocal then pure (some (true, showDict))
          else if !cfg.futureOnlyTv then pure (some (false, showDict))
          else pure none
        else pure none

/-- `finders.find_upcoming_shows`: classify every series of the catalog,
in order, into `(future_shows, aired_shows)`.  A fetch failure for any
processed series propagates (`except ...: raise`). -/
def findUpcomingShows (fetch : EpisodeFetch) (cfg : ShowsCfg) :
    List Series → Except Unit (List ShowDict × List ShowDict)
  | [] => .ok ([], [])
  | series :: rest => do
    let r ← stepUpcomingShow fetch cfg series
    let (futureShows, airedShows) ← findUpcomingShows fetch cfg rest
    match r with
    | none => pure (futureShows, airedShows)
    | some (true, d) => pure (d :: futureShows, airedShows)
    | some (false, d) => pure (futureShows, d :: airedShows)

/-- The loop body of `find_new_shows` for one series: `some d` when `d`
is appended to `new_shows`. -/
def stepNewShow (fetch : EpisodeFetch) (recentDaysNewShow : Int)
    (utcOffsetMin : Int) (now : DateTime) (series : Series) :
    Except Unit (Option ShowDict) :=
  if !(series.monitored.getD true) then .ok none
  else do
    let episodes ← fetch series.id
    match episodes.find? (fun ep =>
        ep.seasonNumber == some 1 && ep.episodeNumber == some 1) with
    | none => pure none
    | some s01e01 =>
      if !(s01e01.hasFile.getD false) then pure none
      else match s01e01.airDateUtc with
      | none => pure none
      | some airUtc =>
        let airDate := convertUtcToLocal airUtc utcOffsetMin
        let nowLocal := now + utcOffsetMin
        let cutoffDate := nowLocal - recentDaysNewShow * minutesPerDay
        if cutoffDate ≤ airDate ∧ airDate ≤ nowLocal then
          pure (some
            { title := series.title
              tvdbId := series.tvdbId
              path := some (series.path.getD "")
              imdbId := some (series.imdbId.getD "")
              year := series.year
              airDate := some (dateOf airDate) })
        else pure none

/-- `finders.find_new_shows`. -/
def findNewShows (fetch : EpisodeFetch) (recentDaysNewShow : Int)
    (utcOffsetMin : Int) (now : DateTime) :
    List Series → Except Unit (List ShowDict)
  | [] => .ok []
  | series :: rest => do
    let r ← stepNewShow fetch recentDaysNewShow utcOffsetMin now series
    let newShows ← findNewShows fetch recentDaysNewShow utcOffsetMin now rest
    match r with
    | none => pure newShows
    | some d => pure (d :: newShows)

/-- The parameters of `find_upcoming_movies`, with the `now` snapshot. -/
structure MoviesCfg where
  futureDays : Int
  utcOffsetMin : Int
  futureOnly : Bool
  includeInCinemas : Bool
  excludeTags : List Int
  pastDays : Int
  now : DateTime
deriving Repr, DecidableEq

/-- Ordering of release-date candidates by date, the key of
`valid_dates.sort(key=lambda x: x[0])`.  The source sorts ISO-8601
timestamp strings, whose lexicographic order coincides with chronological
order, embedded here as `Int` order. -/
def dateLe (x y : DateTime × String) : Prop := x.1 ≤ y.1

instance : DecidableRel dateLe := fun x y => inferInstanceAs (Decidable (x.1 ≤ y.1))

instance : IsTotal (DateTime × String) dateLe := ⟨fun a b => Int.le_total a.1 b.1⟩

instance : IsTrans (DateTime × String) dateLe := ⟨fun _ _ _ h1 h2 => le_trans h1 h2⟩

/-- The release-date candidates present on a movie, in the priority order
the source lists them (`dates_to_check` filtered to `valid_dates`). -/
def validReleaseDates (movie : Movie) : List (DateTime × String) :=
  [(movie.digitalRelease, "Digital"),
   (movie.physicalRelease, "Physical"),
   (movie.inCinemas, "Cinema")].filterMap
    (fun dt => dt.1.map (fun d => (d, dt.2)))

/-- The release date/type selection of `find_upcoming_movies`
(lines 237-255): with `include_inCinemas`, the head of the stable sort of
the present dates; otherwise digital, else physical, cinema ignored. -/
def pickReleaseDate (includeInCinemas : Bool) (movie : Movie) :
    Option (DateTime × String) :=
  if includeInCinemas then
    match List.insertionSort dateLe (validReleaseDates movie) with
    | [] => none
    | best :: _ => some best
  else
    match movie.digitalRelease with
    | some d => some (d, "Digital")
    | none => movie.physicalRelease.map (fun d => (d, "Physical"))

/-- The loop body of `find_upcoming_movies` for one movie: `none` when
skipped, `some (true, d)` when appended to `future_movies`, `some (false, d)`
when appended to `released_movies`. -/
def stepUpcomingMovie (cfg : MoviesCfg) (movie : Movie) :
    Option (Bool × MovieDict) :=
  if !(movie.monitored.getD false) then none
  else if movie.hasFile.getD false then none
  else if cfg.excludeTags.any (fun tag => movie.tags.contains tag) then none
  else match pickReleaseDate cfg.includeInCinemas movie with
  | none => none
  | some (releaseDateStr, releaseType) =>
    let releaseDate := convertUtcToLocal releaseDateStr cfg.utcOffsetMin
    let cutoffDate := cfg.now + cfg.futureDays * minutesPerDay
    let nowLocal := cfg.now + cfg.utcOffsetMin
    -- `past_cutoff_date` is set only when `past_days_upcoming_movies > 0 and not future_only`
    let pastCutoffDate : Option DateTime :=
      if cfg.pastDays > 0 ∧ !cfg.futureOnly then
        some (nowLocal - cfg.pastDays * minutesPerDay)
      else none
    let skipPast : Bool :=
      match pastCutoffDate with
      | some pc => releaseDate < pc
      | none => false
    if skipPast then none
    else
      let movieDict : MovieDict :=
        { title := movie.title
          tmdbId := movie.tmdbId
          imdbId := movie.imdbId
          path := some (movie.path.getD "")
          folderName := some (movie.folderName.getD "")
          year := movie.year
          releaseDate := some (dateOf releaseDate)
          releaseType := releaseType }
      if releaseDate ≥ nowLocal ∧ releaseDate ≤ cutoffDate then
        some (true, movieDict)
      else if releaseDate < nowLocal ∧ !cfg.futureOnly then
        some (false, movieDict)
      else none

/-- `finders.find_upcoming_movies`: classify every movie of the catalog
into `(future_movies, released_movies)`. -/
def findUpcomingMovies (cfg : MoviesCfg) :
    List Movie → List MovieDict × List MovieDict
  | [] => ([], [])
  | movie :: rest =>
    let (futureMovies, releasedMovies) := findUpcomingMovies cfg rest
    match stepUpcomingMovie cfg movie with
    | none => (futureMovies, releasedMovies)
    | some (true, d) => (d :: futureMovies, releasedMovies)
    | some (false, d) => (futureMovies, d :: releasedMovies)

/-! ### Trending reconciliation (`process_trending_tv` / `process_trending_movies`) -/

/-- The Python dictionaries `sonarr_by_*` are built in catalog order with
later entries overwriting earlier ones, so a lookup returns the last
matching record. -/
def dictLookup {α : Type} (key : α → Option String) (pool : List α)
    (k : String) : Option α :=
  (pool.filter (fun x => key x == some k)).getLast?

/-- `str(series['tvdbId'])` when `series.get('tvdbId')` is truthy. -/
def seriesTvdbKey (s : Series) : Option String :=
  match s.tvdbId with
  | some n => if n ≠ 0 then some (toString n) else none
  | none => none

/-- `str(series['tmdbId'])` when truthy. -/
def seriesTmdbKey (s : Series) : Option String :=
  match s.tmdbId with
  | some n => if n ≠ 0 then some (toString n) else none
  | none => none

/-- `series['imdbId']` when truthy (nonempty). -/
def seriesImdbKey (s : Series) : Option String :=
  match s.imdbId with
  | some v => if v ≠ "" then some v else none
  | none => none

/-- `str(item.get('tvdb_id', '')) if item.get('tvdb_id') else None`. -/
def trendTvdbStr (item : TrendItem) : Option String :=
  match item.tvdbId with
  | some n => if n ≠ 0 then some (toString n) else none
  | none => none

/-- `str(item.get('tmdb_id', '')) if item.get('tmdb_id') else None`
(the TV variant). -/
def trendTmdbStr (item : TrendItem) : Option String :=
  match item.tmdbId with
  | some n => if n ≠ 0 then some (toString n) else none
  | none => none

/-- The identity join of `process_trending_tv` (lines 332-339): tvdb id
first, then tmdb id, then a truthy imdb id. -/
def joinTrendingTv (allSeries : List Series) (item : TrendItem) :
    Option Series :=
  match trendTvdbStr item >>= dictLookup seriesTvdbKey allSeries with
  | some s => some s
  | none =>
    match trendTmdbStr item >>= dictLookup seriesTmdbKey allSeries with
    | some s => some s
    | none =>
      if item.imdbId ≠ "" then dictLookup seriesImdbKey allSeries item.imdbId
      else none

/-- The show dictionary built for a trending item found in the tracker. -/
def trendShowDict (s : Series) (rank : Option Int) : ShowDict :=
  { title := s.title
    tvdbId := s.tvdbId
    tmdbId := s.tmdbId
    path := some (s.path.getD "")
    imdbId := some (s.imdbId.getD "")
    year := s.year
    airDate := none
    rank := rank }

/-- `int(s) if s and s.isdigit() else None`. -/
def pyIntOfDigits (s : String) : Option Int :=
  if s ≠ "" ∧ s.all Char.isDigit then s.toInt? else none

/-- The show dictionary built for a trending item not found in the
tracker (lines 411-420): ids reuse the stringified values, `path` is
Python `None`. -/
def trendShowDictNotFound (item : TrendItem) : ShowDict :=
  { title := item.title
    tvdbId := (trendTvdbStr item).bind pyIntOfDigits
    tmdbId := (trendTmdbStr item).bind pyIntOfDigits
    path := none
    imdbId := some item.imdbId
    year := item.year
    airDate := none
    rank := item.rank }

/-- Outcome of one trending TV entry: dropped entirely, classified
request-needed (`not_found_or_unmonitored`), or classified monitored-not-
available (`monitored_not_available`). -/
inductive TrendTvOut where
  | excluded
  | requestNeeded (d : ShowDict)
  | monitoredNA (d : ShowDict)
deriving Repr, DecidableEq

/-- The loop body of `process_trending_tv` for one trending entry. -/
def stepTrendingTv (fetch : EpisodeFetch) (allSeries : List Series)
    (item : TrendItem) : Except Unit TrendTvOut :=
  match joinTrendingTv allSeries item with
  | some sonarrSeries => do
    let episodes ← fetch sonarrSeries.id
    if episodes.any (fun ep => ep.hasFile.getD false) then
      pure .excluded
    else if !(sonarrSeries.monitored.getD false) then
      pure (.requestNeeded (trendShowDict sonarrSeries item.rank))
    else if !(episodes.any (fun ep => ep.monitored.getD false)) then
      pure (.requestNeeded (trendShowDict sonarrSeries item.rank))
    else
      pure (.monitoredNA (trendShowDict sonarrSeries item.rank))
  | none => pure (.requestNeeded (trendShowDictNotFound item))

/-- `finders.process_trending_tv`: returns
`(monitored_not_available, not_found_or_unmonitored)`. -/
def processTrendingTv (fetch : EpisodeFetch) (allSeries : List Series) :
    List TrendItem → Except Unit (List ShowDict × List ShowDict)
  | [] => .ok ([], [])
  | item :: rest => do
    let r ← stepTrendingTv fetch allSeries item
    let (monitoredNA, requestNeeded) ← processTrendingTv fetch allSeries rest
    match r with
    | .excluded => pure (monitoredNA, requestNeeded)
    | .monitoredNA d => pure (d :: monitoredNA, requestNeeded)
    | .requestNeeded d => pure (monitoredNA, d :: requestNeeded)

/-- `str(movie['tmdbId'])` when truthy, for the Radarr lookup dict. -/
def movieTmdbKey (m : Movie) : Option String :=
  match m.tmdbId with
  | some n => if n ≠ 0 then some (toString n) else none
  | none => none

/-- `movie['imdbId']` when truthy. -/
def movieImdbKey (m : Movie) : Option String :=
  match m.imdbId with
  | some v => if v ≠ "" then some v else none
  | none => none

/-- `process_trending_movies` builds `tmdb_id = str(item.get('tmdb_id', ''))`
unconditionally; missing becomes the falsy empty string. -/
def trendMovieTmdbStr (item : TrendItem) : String :=
  match item.tmdbId with
  | some n => toString n
  | none => ""

/-- The identity join of `process_trending_movies` (lines 457-462). -/
def joinTrendingMovie (allMovies : List Movie) (item : TrendItem) :
    Option Movie :=
  let tmdbStr := trendMovieTmdbStr item
  match (if tmdbStr ≠ "" then dictLookup movieTmdbKey allMovies tmdbStr
         else none) with
  | some m => some m
  | none =>
    if item.imdbId ≠ "" then dictLookup movieImdbKey allMovies item.imdbId
    else none

/-- The movie dictionary built for a trending item found in the tracker. -/
def trendMovieDict (m : Movie) (rank : Option Int) : MovieDict :=
  { title := m.title
    tmdbId := m.tmdbId
    imdbId := m.imdbId
    path := some (m.path.getD "")
    folderName := some (m.folderName.getD "")
    year := m.year
    releaseDate := none
    releaseType := "Trending"
    rank := rank }

/-- The movie dictionary built for a trending item not found in the
tracker (lines 509-519). -/
def trendMovieDictNotFound (item : TrendItem) : MovieDict :=
  { title := item.title
    tmdbId := pyIntOfDigits (trendMovieTmdbStr item)
    imdbId := some item.imdbId
    path := none
    folderName := none
    year := item.year
    releaseDate := none
    releaseType := "Trending"
    rank := item.rank }

/-- Outcome of one trending movie entry. -/
inductive TrendMovieOut where
  | excluded
  | requestNeeded (d : MovieDict)
  | monitoredNA (d : MovieDict)
deriving Repr, DecidableEq

/-- The loop body of `process_trending_movies` for one trending entry
(pure: no per-movie fetch is needed on the movie side). -/
def stepTrendingMovie (allMovies : List Movie) (item : TrendItem) :
    TrendMovieOut :=
  match joinTrendingMovie allMovies item with
  | some radarrMovie =>
    if radarrMovie.hasFile.getD false then .excluded
    else if radarrMovie.monitored.getD false then
      .monitoredNA (trendMovieDict radarrMovie item.rank)
    else
      .requestNeeded (trendMovieDict radarrMovie item.rank)
  | none => .requestNeeded (trendMovieDictNotFound item)

/-- `finders.process_trending_movies`: returns
`(monitored_not_available, not_found_or_unmonitored)`. -/
def processTrendingMovies (allMovies : List Movie) :
    List TrendItem → List MovieDict × List MovieDict
  | [] => ([], [])
  | item :: rest =>
    let (monitoredNA, requestNeeded) := processTrendingMovies allMovies rest
    match stepTrendingMovie allMovies item with
    | .excluded => (monitoredNA, requestNeeded)
    | .monitoredNA d => (d :: monitoredNA, requestNeeded)
    | .requestNeeded d => (monitoredNA, d :: requestNeeded)

/-! ### Title normalization (`cleanup.normalize_title`) -/

/-- ASCII whitespace as matched by the Python regex class `\s` and by
`str.split()`. -/
def isPyWs (c : Char) : Bool :=
  c = ' ' || c = '\t' || c = '\n' || c = '\r' || c = '\x0b' || c = '\x0c'

/-- ASCII word characters as matched by the Python regex class `\w`. -/
def isPyWord (c : Char) : Bool :=
  c.isAlphanum || c = '_'

/-- Try to match the regular expression `\s*\(\d{4}\)\s*` at the head of
the character list; on success return the remainder after the match.  The
leading `\s*` must be followed immediately by `(`, four digits and `)`;
the trailing `\s*` is greedy. -/
def matchYearParen : List Char → Option (List Char)
  | [] => none
  | c :: cs =>
    if c = '(' then
      match cs with
      | d1 :: d2 :: d3 :: d4 :: ')' :: rest =>
        if d1.isDigit && d2.isDigit && d3.isDigit && d4.isDigit then
          some (rest.dropWhile isPyWs)
        else none
      | _ => none
    else if isPyWs c then matchYearParen cs
    else none

/-- `re.sub(r'\s*\(\d{4}\)\s*', '', title)`: left-to-right scan deleting
each non-overlapping match.  Structural recursion on a fuel argument;
every step consumes at least one character, so fuel equal to the length
of the list is exact. -/
def stripYearAux : Nat → List Char → List Char
  | _, [] => []
  | 0, _ :: _ => []
  | fuel + 1, c :: cs =>
    match matchYearParen (c :: cs) with
    | some rem => stripYearAux fuel rem
    | none => c :: stripYearAux fuel cs

/-- The year-token removal pass of `normalize_title`. -/
def stripYearTokens (cs : List Char) : List Char :=
  stripYearAux cs.length cs

/-- `str.split()` on whitespace runs, dropping empty fields, again with
exact fuel. -/
def splitWsAux : Nat → List Char → List String
  | 0, _ => []
  | fuel + 1, cs =>
    match cs.dropWhile isPyWs with
    | [] => []
    | c :: rest =>
      ((c :: rest).takeWhile (fun x => !isPyWs x)).asString ::
        splitWsAux fuel ((c :: rest).dropWhile (fun x => !isPyWs x))

/-- `str.split()`. -/
def splitWs (cs : List Char) : List String :=
  splitWsAux (cs.length + 1) cs

/-- `cleanup.normalize_title` (defined identically at lines 50-54 and
352-356): delete `\s*\(\d{4}\)\s*` matches, delete characters outside
`\w` and `\s`, lower-case, collapse whitespace via split/join. -/
def normalizeTitle (title : String) : String :=
  let noYear := stripYearTokens title.toList
  let noPunct := noYear.filter (fun c => isPyWord c || isPyWs c)
  let lowered := noPunct.map Char.toLower
  String.intercalate " " (splitWs lowered)

/-! ### Movie cleanup decisions (`cleanup.cleanup_movie_content`) -/

/-- The per-folder decision of `cleanup_movie_content` for a
`{edition-Coming Soon}` folder that resolves to a tracker movie
(lines 503-536).  Returns `some reason` when the folder is to be removed,
`none` when it is kept. -/
def movieComingSoonDecision (movie : Movie) (upcomingTitles : List String)
    (trendingMonitored : List MovieDict) (excludeTags : List Int) :
    Option String :=
  let movieTitle := movie.title
  let inUpcoming := upcomingTitles.contains movieTitle
  -- exact title in `current_trending_monitored_titles`, else the
  -- normalized-title loop over `trending_monitored`
  let inTrendingMonitored :=
    if trendingMonitored.any (fun t => t.title == movieTitle) then true
    else trendingMonitored.any (fun t =>
      normalizeTitle movieTitle == normalizeTitle t.title)
  if !inUpcoming && !inTrendingMonitored then
    if movie.hasFile.getD false then some "movie has been downloaded"
    else if !(movie.monitored.getD false) then
      some "movie is no longer monitored"
    else if excludeTags.any (fun tag => movie.tags.contains tag) then
      some "movie has excluded tags"
    else some "movie no longer meets criteria"
  else none

/-- The per-folder decision of `cleanup_movie_content` for a
`{edition-Trending}` folder (lines 464-495): kept when the title extracted
from the folder name matches some current trending movie exactly or under
normalization. -/
def movieTrendingDecision (titleWithoutYear : String)
    (currentTrendingMovies : List MovieDict) : Option String :=
  let foundInTrending := currentTrendingMovies.any (fun t =>
    titleWithoutYear == t.title ||
      normalizeTitle titleWithoutYear == normalizeTitle t.title)
  if !foundInTrending then some "no longer in trending list" else none

/-! ### TV cleanup (`cleanup.cleanup_tv_content`) -/

/-- An on-disk show folder as discovered by the scanner, for the
configuration without a root override: `dirPath` is `str(show_dir)` (the
tracker-reported path), `name` the folder basename, `isTrending` the
presence of the `.trending` marker, `trailerFiles` the
`*.S00E00.Trailer.*` and `*.S00E00.Coming.Soon.*` files of `Season 00`. -/
structure TvFolder where
  dirPath : String
  name : String
  hasSeason00 : Bool
  isTrending : Bool
  trailerFiles : List String
deriving Repr, DecidableEq

/-- `series_by_path`: a dict keyed by the truthy tracker path, last entry
winning. -/
def seriesPathKey (s : Series) : Option String :=
  match s.path with
  | some p => if p ≠ "" then some p else none
  | none => none

/-- Try to match `\s*\(\d{4}\)` at the head of a character list (the tail
of the folder-title regex `^(.+?)\s*\((\d{4})\)`). -/
def matchWsParenYear : List Char → Bool
  | [] => false
  | c :: cs =>
    if c = '(' then
      match cs with
      | d1 :: d2 :: d3 :: d4 :: ')' :: _ =>
        d1.isDigit && d2.isDigit && d3.isDigit && d4.isDigit
      | _ => false
    else if isPyWs c then matchWsParenYear cs
    else false

/-- Python `str.strip()`. -/
def pyStrip (cs : List Char) : List Char :=
  ((cs.dropWhile isPyWs).reverse.dropWhile isPyWs).reverse

/-- The lazy group of `re.match(r'^(.+?)\s*\((\d{4})\)', name)`: the
shortest nonempty prefix followed by optional whitespace and a
parenthesized 4-digit year. -/
def folderTitleAux (seen : List Char) : List Char → Option (List Char)
  | [] => none
  | c :: rest =>
    let seen' := seen ++ [c]
    if matchWsParenYear rest then some seen' else folderTitleAux seen' rest

/-- Title extraction from a show/movie folder name (cleanup lines
108-112 and 449-455): the matched lazy group stripped, or the whole name
when the pattern does not match. -/
def extractFolderTitle (name : String) : String :=
  match folderTitleAux [] name.toList with
  | some cs => (pyStrip cs).asString
  | none => name

/-- The context computed by `cleanup_tv_content` before scanning folders. -/
structure TvCleanupCtx where
  upcomingTitles : List String
  trendingShows : List ShowDict
  excludeTags : List Int
  futureDays : Int
  utcOffsetMin : Int
  futureOnlyTv : Bool
  now : DateTime
deriving Repr

/-- Decision outcome for one trailer/placeholder file. -/
inductive TvFileDecision where
  | keep
  | evict (reason : String)
deriving Repr, DecidableEq

/-- The per-file decision of `cleanup_tv_content` (lines 135-221).
`seriesOfDir` is the `series_by_path` resolution of the containing folder,
`folderTitle` the title extracted from the folder name.  An episode fetch
failure propagates (the caller returns, abandoning all remaining
cleanup). -/
def tvFileDecision (fetch : EpisodeFetch) (ctx : TvCleanupCtx)
    (isTrending : Bool) (seriesOfDir : Option Series)
    (folderTitle : String) : Except Unit TvFileDecision :=
  if isTrending then
    let checkTitle :=
      match seriesOfDir with
      | some s => s.title
      | none => folderTitle
    let foundInTrending :=
      if ctx.trendingShows.any (fun t => t.title == checkTitle) then true
      else ctx.trendingShows.any (fun t =>
        normalizeTitle checkTitle == normalizeTitle t.title)
    if !foundInTrending then .ok (.evict "no longer in trending list")
    else .ok .keep
  else
    match seriesOfDir with
    | none => .ok (.evict "show no longer exists in Sonarr")
    | some series =>
      if ctx.upcomingTitles.contains series.title then .ok .keep
      else do
        let episodes ← fetch series.id
        let s01e01 := episodes.find? (fun ep =>
          ep.seasonNumber == some 1 && ep.episodeNumber == some 1)
        -- `if s01e01 and s01e01.get('hasFile', False)`
        if (s01e01.map (fun e => e.hasFile.getD false)).getD false then
          pure (.evict "S01E01 now available")
        else if !(series.monitored.getD true) then
          pure (.evict "show is no longer monitored")
        else if (s01e01.map (fun e => !(e.monitored.getD false))).getD false then
          pure (.evict "S01E01 is no longer monitored")
        else if ctx.excludeTags.any (fun tag => series.tags.contains tag) then
          pure (.evict "show has excluded tags")
        else
          match s01e01 with
          | some e =>
            match e.airDateUtc with
            | some airUtc =>
              let airDate := convertUtcToLocal airUtc ctx.utcOffsetMin
              -- line 208: this cutoff additionally carries the utc offset
              let cutoffDate :=
                ctx.now + ctx.utcOffsetMin + ctx.futureDays * minutesPerDay
              let nowLocal := ctx.now + ctx.utcOffsetMin
              if airDate > cutoffDate then
                pure (.evict "first episode is beyond day range")
              else if ctx.futureOnlyTv ∧ airDate < nowLocal then
                pure (.evict "aired show excluded due to future_only_tv=True")
              else pure .keep
            | none => pure (.evict "no valid S01E01 or air date found")
          | none => pure (.evict "no valid S01E01 or air date found")

/-- The inner file loop of `cleanup_tv_content` for one folder.  The
result lists `(file, reason)` evictions; `Except.error done` models the
early `return` on a fetch failure, carrying the evictions already
performed. -/
def cleanupFolderFiles (fetch : EpisodeFetch) (ctx : TvCleanupCtx)
    (isTrending : Bool) (seriesOfDir : Option Series) (folderTitle : String) :
    List String → Except (List (String × String)) (List (String × String))
  | [] => .ok []
  | file :: rest =>
    match tvFileDecision fetch ctx isTrending seriesOfDir folderTitle with
    | .error _ => .error []
    | .ok .keep => cleanupFolderFiles fetch ctx isTrending seriesOfDir folderTitle rest
    | .ok (.evict reason) =>
      match cleanupFolderFiles fetch ctx isTrending seriesOfDir folderTitle rest with
      | .error done => .error ((file, reason) :: done)
      | .ok done => .ok ((file, reason) :: done)

/-- The folder loop of `cleanup_tv_content`: a fetch failure inside a
folder ends the whole scan, keeping evictions already made. -/
def cleanupFolders (fetch : EpisodeFetch) (ctx : TvCleanupCtx)
    (allSeries : List Series) : List TvFolder → List (String × String)
  | [] => []
  | folder :: rest =>
    if !folder.hasSeason00 then cleanupFolders fetch ctx allSeries rest
    else
      let seriesOfDir := dictLookup seriesPathKey allSeries folder.dirPath
      let folderTitle := extractFolderTitle folder.name
      match cleanupFolderFiles fetch ctx folder.isTrending seriesOfDir
          folderTitle folder.trailerFiles with
      | .error done => done
      | .ok evs => evs ++ cleanupFolders fetch ctx allSeries rest

/-- `cleanup.cleanup_tv_content` for the configuration without a root
override: recompute the desired show state, then scan the folders.  A
failure of the desired-state computation aborts cleanup with no eviction
(lines 31-38); a failure of a per-file episode fetch aborts the remaining
scan (lines 180-185). -/
def cleanupTvContent (fetch : EpisodeFetch) (allSeries : List Series)
    (cfg : ShowsCfg) (trendingMonitored trendingRequestNeeded : List ShowDict)
    (folders : List TvFolder) : List (String × String) :=
  match findUpcomingShows fetch cfg allSeries with
  | .error _ => []
  | .ok (futureShows, airedShows) =>
    let ctx : TvCleanupCtx :=
      { upcomingTitles := (futureShows ++ airedShows).map (fun s => s.title)
        trendingShows := trendingMonitored ++ trendingRequestNeeded
        excludeTags := cfg.excludeTags
        futureDays := cfg.futureDays
        utcOffsetMin := cfg.utcOffsetMin
        futureOnlyTv := cfg.futureOnlyTv
        now := cfg.now }
    cleanupFolders fetch ctx allSeries folders

/-! ### Movie cleanup scan (`cleanup_movie_content`) -/

/-- An on-disk edition folder for movies.  `resolved` is the lookup of the
folder path in the dict keyed by the reconstructed edition folder path
(`radarr_movie_lookup_coming_soon` / `_trending`), i.e. the tracker movie
the folder belongs to, when any. -/
structure MovieFolder where
  name : String
  isTrending : Bool
  resolved : Option Movie
deriving Repr, DecidableEq

/-- The per-folder decision of `cleanup_movie_content` (lines 439-539):
`some reason` to remove the folder. -/
def movieFolderDecision (folder : MovieFolder)
    (upcomingTitles : List String)
    (currentTrendingMovies trendingMonitored : List MovieDict)
    (excludeTags : List Int) : Option String :=
  if folder.isTrending then
    movieTrendingDecision (extractFolderTitle folder.name)
      currentTrendingMovies
  else
    match folder.resolved with
    | some movie =>
      movieComingSoonDecision movie upcomingTitles trendingMonitored
        excludeTags
    | none => some "movie no longer exists in Radarr"

/-- `cleanup.cleanup_movie_content`: decide every discovered edition
folder.  The desired movie state is passed in, not recomputed. -/
def cleanupMovieContent (futureMovies releasedMovies : List MovieDict)
    (trendingMonitored trendingRequestNeeded : List MovieDict)
    (excludeTags : List Int) (folders : List MovieFolder) :
    List (String × String) :=
  let upcomingTitles := (futureMovies ++ releasedMovies).map (fun m => m.title)
  let currentTrendingMovies := trendingMonitored ++ trendingRequestNeeded
  folders.filterMap (fun folder =>
    (movieFolderDecision folder upcomingTitles currentTrendingMovies
        trendingMonitored excludeTags).map (fun reason =>
      (folder.name, reason)))

/-! ### Main control flow (`main.main`), configuration reading -/

/-- The integer-valued part of the parsed YAML configuration;
`config.get(key, default)` is `(cfg key).getD default`.  The source
applies no validation whatsoever to these values (`load_config` only
parses the YAML). -/
abbrev IntConfig := String → Option Int

/-- `config.get(key, default)` for an integer key. -/
def cfgGetI (cfg : IntConfig) (key : String) (default : Int) : Int :=
  (cfg key).getD default

/-- The show-window configuration exactly as `main` extracts it
(main.py lines 180-182): defaults applied, no range check. -/
def tvShowsCfgOfConfig (cfg : IntConfig) (utcOffsetMin : Int)
    (excludeTags : List Int) (futureOnlyTv : Bool) (now : DateTime) :
    ShowsCfg :=
  { futureDays := cfgGetI cfg "future_days_upcoming_shows" 30
    utcOffsetMin := utcOffsetMin
    excludeTags := excludeTags
    futureOnlyTv := futureOnlyTv
    now := now }

/-- The movie-window configuration exactly as `main` extracts it
(main.py lines 574-577). -/
def moviesCfgOfConfig (cfg : IntConfig) (utcOffsetMin : Int)
    (futureOnly includeInCinemas : Bool) (excludeTags : List Int)
    (now : DateTime) : MoviesCfg :=
  { futureDays := cfgGetI cfg "future_days_upcoming_movies" 30
    utcOffsetMin := utcOffsetMin
    futureOnly := futureOnly
    includeInCinemas := includeInCinemas
    excludeTags := excludeTags
    pastDays := cfgGetI cfg "past_days_upcoming_movies" 0
    now := now }

/-- Everything the TV pass of `main` computes when it does not raise. -/
structure TvPhaseOut where
  futureShows : List ShowDict
  airedShows : List ShowDict
  newShows : List ShowDict
  trendingMonitored : List ShowDict
  trendingRequestNeeded : List ShowDict
  tvEvictions : List (String × String)
deriving Repr

/-- The TV pass of `main` (lines 168-543), modelled for a run with the TV
and trending methods enabled and cleanup on: the desired-state builders
run first and any tracker failure raised by them propagates; cleanup
catches its own failures internally. -/
def tvPhase (fetch : EpisodeFetch) (allSeries : List Series)
    (cfg : ShowsCfg) (recentDaysNewShow : Int) (trendItems : List TrendItem)
    (folders : List TvFolder) : Except Unit TvPhaseOut := do
  let (futureShows, airedShows) ← findUpcomingShows fetch cfg allSeries
  let newShows ← findNewShows fetch recentDaysNewShow cfg.utcOffsetMin
    cfg.now allSeries
  let (trendingMonitored, trendingRequestNeeded) ←
    processTrendingTv fetch allSeries trendItems
  let tvEvictions := cleanupTvContent fetch allSeries cfg
    trendingMonitored trendingRequestNeeded folders
  pure { futureShows, airedShows, newShows, trendingMonitored,
         trendingRequestNeeded, tvEvictions }

/-- Everything the movie pass of `main` computes (lines 553-836); the
movie pass performs no per-item fetch, so it is total. -/
structure MoviePhaseOut where
  futureMovies : List MovieDict
  releasedMovies : List MovieDict
  trendingMonitored : List MovieDict
  trendingRequestNeeded : List MovieDict
  movieEvictions : List (String × String)
deriving Repr

/-- The movie pass of `main`. -/
def moviePhase (allMovies : List Movie) (cfg : MoviesCfg)
    (trendItems : List TrendItem) (folders : List MovieFolder) :
    MoviePhaseOut :=
  let (futureMovies, releasedMovies) := findUpcomingMovies cfg allMovies
  let (trendingMonitored, trendingRequestNeeded) :=
    processTrendingMovies allMovies trendItems
  let movieEvictions := cleanupMovieContent futureMovies releasedMovies
    trendingMonitored trendingRequestNeeded cfg.excludeTags folders
  { futureMovies, releasedMovies, trendingMonitored,
    trendingRequestNeeded, movieEvictions }

/-- Result of one full run of `main`. -/
structure MainResult where
  tvProcessingFailed : Bool
  tv : Option TvPhaseOut
  movies : MoviePhaseOut
deriving Repr

/-- `main.main`, reduced to its decision skeleton: the TV pass is wrapped
in `try/except` (lines 168 and 544-547) setting `tv_processing_failed`
and falling through to the movie pass, which always runs. -/
def runMain (fetch : EpisodeFetch) (allSeries : List Series)
    (tvCfg : ShowsCfg) (recentDaysNewShow : Int)
    (tvTrendItems : List TrendItem) (tvFolders : List TvFolder)
    (allMovies : List Movie) (movieCfg : MoviesCfg)
    (movieTrendItems : List TrendItem) (movieFolders : List MovieFolder) :
    MainResult :=
  let tvResult := tvPhase fetch allSeries tvCfg recentDaysNewShow
    tvTrendItems tvFolders
  let movieResult := moviePhase allMovies movieCfg movieTrendItems
    movieFolders
  match tvResult with
  | .error _ => { tvProcessingFailed := true, tv := none, movies := movieResult }
  | .ok out => { tvProcessingFailed := false, tv := some out, movies := movieResult }

/-! ### Concrete fixtures used by the counterexamples and witnesses -/

/-- A fetch oracle that always fails (tracker outage). -/
def fetchErr : EpisodeFetch := fun _ => .error ()

/-- A fetch oracle returning no episodes. -/
def fetchEmpty : EpisodeFetch := fun _ => .ok []

/-- A pilot episode: S01E01, monitored, no file, airing at minute 100 UTC. -/
def epPilot : Episode :=
  { seasonNumber := some 1
    episodeNumber := some 1
    monitored := some true
    hasFile := some false
    airDateUtc := some 100 }

/-- A fetch oracle returning exactly the pilot episode. -/
def fetchPilot : EpisodeFetch := fun _ => .ok [epPilot]

/-- A monitored series. -/
def seriesX : Series :=
  { id := 1
    title := "X"
    monitored := some true
    tags := []
    tvdbId := some 7
    tmdbId := none
    imdbId := none
    path := some "/tv/X"
    year := some 2024 }

/-- An unmonitored series. -/
def seriesU : Series :=
  { seriesX with title := "U", monitored := some false, tvdbId := some 9 }

/-- A trending entry joining to `seriesX` by tvdb id. -/
def itemX : TrendItem :=
  { tvdbId := some 7
    tmdbId := none
    imdbId := ""
    title := "X"
    year := some 2024
    rank := some 1 }

/-- A trending entry joining to `seriesU` by tvdb id. -/
def itemU : TrendItem := { itemX with tvdbId := some 9, title := "U" }

/-- A baseline show-window configuration: 30-day window, no offset. -/
def cfgBase : ShowsCfg :=
  { futureDays := 30
    utcOffsetMin := 0
    excludeTags := []
    futureOnlyTv := false
    now := 0 }

/-- A monitored movie with a digital release, except that the `monitored`
key is missing. -/
def movieNoMon : Movie :=
  { title := "M"
    monitored := none
    hasFile := some false
    tags := []
    tmdbId := some 3
    imdbId := none
    digitalRelease := some 100
    physicalRelease := none
    inCinemas := none
    path := some "/mv/M"
    folderName := some "M (2024)"
    year := some 2024 }

/-- A baseline movie-window configuration. -/
def mcfgBase : MoviesCfg :=
  { futureDays := 30
    utcOffsetMin := 0
    futureOnly := false
    includeInCinemas := false
    excludeTags := []
    pastDays := 0
    now := 0 }

/-- `seriesX` with the `monitored` key missing. -/
def seriesNoMon : Series := { seriesX with monitored := none }

/-- An unmonitored movie. -/
def movieU : Movie := { movieNoMon with monitored := some false }

/-- A trending entry joining to `movieU` by tmdb id. -/
def itemM : TrendItem := { itemX with tmdbId := some 3 }

/-- The pilot episode, already downloaded. -/
def epHasFile : Episode := { epPilot with hasFile := some true }

/-- A fetch oracle returning the downloaded pilot. -/
def fetchFile : EpisodeFetch := fun _ => .ok [epHasFile]

/-- A parsed configuration carrying a negative day count. -/
def cfgNegDays : IntConfig := fun k =>
  if k = "future_days_upcoming_shows" then some (-5) else none

/-- The on-disk folder of `seriesX` with one trailer file. -/
def folderX : TvFolder :=
  { dirPath := "/tv/X"
    name := "X (2024)"
    hasSeason00 := true
    isTrending := false
    trailerFiles := ["X.S00E00.Trailer.mkv"] }

/-- A cleanup context with empty desired state. -/
def ctxC : TvCleanupCtx :=
  { upcomingTitles := []
    trendingShows := []
    excludeTags := []
    futureDays := 30
    utcOffsetMin := 0
    futureOnlyTv := false
    now := 0 }

/-- The pilot airing 60 minutes before the epoch. -/
def epBoundary : Episode := { epPilot with airDateUtc := some (-60) }

/-- Fetch oracle for `epBoundary`. -/
def fetchBoundary : EpisodeFetch := fun _ => .ok [epBoundary]

/-- A zero-day window with a one-hour offset and future-only mode. -/
def cfgFot : ShowsCfg :=
  { futureDays := 0
    utcOffsetMin := 60
    excludeTags := []
    futureOnlyTv := true
    now := 0 }

/-- The pilot airing exactly at `now + 30` days. -/
def epAtCutoff : Episode := { epPilot with airDateUtc := some 43200 }

/-- Fetch oracle for `epAtCutoff`. -/
def fetchCutoff : EpisodeFetch := fun _ => .ok [epAtCutoff]

/-- The pilot airing exactly one day past the cutoff. -/
def epPastCutoff : Episode := { epPilot with airDateUtc := some 44640 }

/-- Fetch oracle for `epPastCutoff`. -/
def fetchPast : EpisodeFetch := fun _ => .ok [epPastCutoff]

/-- A monitored movie with all three release dates present. -/
def movieAll : Movie :=
  { title := "A"
    monitored := some true
    hasFile := some false
    tags := []
    tmdbId := some 4
    imdbId := none
    digitalRelease := some 50
    physicalRelease := some 20
    inCinemas := some 30
    path := some "/mv/A"
    folderName := some "A (2024)"
    year := some 2024 }

/-- `movieAll` without a digital release date. -/
def movieDP : Movie := { movieAll with digitalRelease := none }

/-- `movieAll` with no release date at all. -/
def movieNoDates : Movie :=
  { movieAll with
    digitalRelease := none
    physicalRelease := none
    inCinemas := none }

deriving instance DecidableEq for Except

/-! ## Theorems settling the claims -/

/-- Evaluation of `Except` bind on a success, used to unfold the
monadic loops. -/
theorem ok_bind {e a b : Type} (x : a) (f : a → Except e b) :
    (Except.ok x : Except e a) >>= f = f x := rfl

/-- Evaluation of `Except` bind on a failure. -/
theorem error_bind {e a b : Type} (err : e) (f : a → Except e b) :
    (Except.error err : Except e a) >>= f = Except.error err := rfl

/-- `pure` of the `Except` monad is `Except.ok`. -/
theorem pure_eq_ok {e a : Type} (x : a) :
    (pure x : Except e a) = Except.ok x := rfl

/-- Claim C7, counterexample: `normalize_title` does not strip a
square-bracketed 4-digit year token — only the brackets are removed (as
punctuation), so the digits survive and `"Foundation [2023]"` does not
normalize to the same key as `"foundation"`, contradicting the claim that
parenthesized and bracketed year tokens are both stripped. -/
theorem C7_counterexample :
    normalizeTitle "Foundation [2023]" = "foundation 2023" ∧
    normalizeTitle "Foundation [2023]" ≠ normalizeTitle "foundation" := by
  constructor <;> decide

/-- Claim C7, amended: title normalization is a pure function that strips
a parenthesized (round-bracket only) 4-digit year token, removes
punctuation, collapses whitespace and lower-cases; a square-bracketed
year loses only its brackets.  In particular
`normalize "Foundation (2023)" = normalize "foundation"` and
`normalize "Foundation (2023)" ≠ normalize "Foundation 2 (2023)"`. -/
theorem C7_amended :
    normalizeTitle "Foundation (2023)" = normalizeTitle "foundation" ∧
    normalizeTitle "Foundation (2023)" ≠ normalizeTitle "Foundation 2 (2023)" ∧
    normalizeTitle "The  Matrix: Reloaded!" = "the matrix reloaded" ∧
    normalizeTitle "Foundation [2023]" = "foundation 2023" := by
  refine ⟨?_, ?_, ?_, ?_⟩ <;> decide

/-- Claim C4: a "Coming Soon"-edition movie folder that resolves to a
tracker movie is kept exactly when the movie's title is in the upcoming
set (future or released movies, exact title) or matches some
trending-monitored movie exactly or under title normalization; it is
evicted only when it is in neither set. -/
theorem C4_coming_soon_keep_iff (movie : Movie)
    (futureMovies releasedMovies trendingMonitored : List MovieDict)
    (excludeTags : List Int) :
    movieComingSoonDecision movie
        ((futureMovies ++ releasedMovies).map (fun m => m.title))
        trendingMonitored excludeTags = none ↔
      (movie.title ∈ (futureMovies ++ releasedMovies).map (fun m => m.title) ∨
        ∃ t ∈ trendingMonitored, t.title = movie.title ∨
          normalizeTitle movie.title = normalizeTitle t.title) := by
  simp only [movieComingSoonDecision]
  cases hU : ((futureMovies ++ releasedMovies).map (fun m => m.title)).contains movie.title with
  | true =>
    have hmem : movie.title ∈ (futureMovies ++ releasedMovies).map (fun m => m.title) :=
      List.elem_iff.mp hU
    simp only [List.mem_map, List.mem_append] at hmem
    obtain ⟨a, ha, he⟩ := hmem
    simp
    rcases ha with ha | ha
    · exact Or.inl (Or.inl ⟨a, ha, he⟩)
    · exact Or.inl (Or.inr ⟨a, ha, he⟩)
  | false =>
    have hmem : movie.title ∉ (futureMovies ++ releasedMovies).map (fun m => m.title) := by
      intro hm
      have h2 : ((futureMovies ++ releasedMovies).map (fun m => m.title)).contains
          movie.title = true := List.elem_iff.mpr hm
      rw [h2] at hU
      cases hU
    cases hT1 : trendingMonitored.any (fun t => t.title == movie.title) with
    | true =>
      have : ∃ t ∈ trendingMonitored, t.title = movie.title ∨
          normalizeTitle movie.title = normalizeTitle t.title := by
        rcases List.any_eq_true.mp hT1 with ⟨t, ht, he⟩
        exact ⟨t, ht, Or.inl (beq_iff_eq.mp he)⟩
      simp [this]
    | false =>
      cases hT2 : trendingMonitored.any
          (fun t => normalizeTitle movie.title == normalizeTitle t.title) with
      | true =>
        have : ∃ t ∈ trendingMonitored, t.title = movie.title ∨
            normalizeTitle movie.title = normalizeTitle t.title := by
          rcases List.any_eq_true.mp hT2 with ⟨t, ht, he⟩
          exact ⟨t, ht, Or.inr (beq_iff_eq.mp he)⟩
        simp [this]
      | false =>
        have hnone : ¬ ∃ t ∈ trendingMonitored, t.title = movie.title ∨
            normalizeTitle movie.title = normalizeTitle t.title := by
          rintro ⟨t, ht, he | he⟩
          · rw [List.any_eq_true.mpr ⟨t, ht, by simpa using he⟩] at hT1
            cases hT1
          · rw [List.any_eq_true.mpr ⟨t, ht, by simpa using he⟩] at hT2
            cases hT2
        simp only [hmem, hnone, or_self, iff_false]
        intro h
        repeat' split at h
        all_goals simp_all

/-- Claim C10: at the builder interface the default for a missing
`monitored` key is asymmetric — a series lacking the key is treated
exactly as a monitored series (`series.get('monitored', True)`), while a
movie lacking the key is skipped (`movie.get('monitored', False)`). -/
theorem C10_monitored_default_asymmetry :
    (∀ (fetch : EpisodeFetch) (cfg : ShowsCfg) (s : Series),
        s.monitored = none →
        stepUpcomingShow fetch cfg s =
          stepUpcomingShow fetch cfg { s with monitored := some true }) ∧
    (∀ (cfg : MoviesCfg) (m : Movie), m.monitored = none →
        stepUpcomingMovie cfg m = none) := by
  constructor
  · intro fetch cfg s h
    simp [stepUpcomingShow, h]
  · intro cfg m h
    simp [stepUpcomingMovie, h]

/-- Claim C10, witness: a concrete series record without the `monitored`
key behaves as monitored and is in fact classified `FutureShow`, while
the analogous movie record is skipped. -/
theorem C10_witness :
    seriesNoMon.monitored = none ∧
    movieNoMon.monitored = none ∧
    stepUpcomingShow fetchPilot cfgBase seriesNoMon =
      stepUpcomingShow fetchPilot cfgBase { seriesNoMon with monitored := some true } ∧
    stepUpcomingMovie mcfgBase movieNoMon = none ∧
    stepUpcomingShow fetchPilot cfgBase seriesNoMon =
      .ok (some (true,
        { title := "X", tvdbId := some 7, path := some "/tv/X",
          imdbId := some "", year := some 2024, airDate := some 0 })) := by
  refine ⟨rfl, rfl, ?_, ?_, by decide⟩
  · exact C10_monitored_default_asymmetry.1 fetchPilot cfgBase seriesNoMon rfl
  · exact C10_monitored_default_asymmetry.2 mcfgBase movieNoMon rfl

/-- Claim C1, counterexample: an unmonitored tracker series matched by a
trending entry and holding no downloaded episode IS included in the
builder output, in the `TrendingRequestNeeded` category
(`not_found_or_unmonitored`), contradicting the claim that an item with
monitored=false appears in none of the seven categories. -/
theorem C1_counterexample :
    seriesU.monitored = some false ∧
    processTrendingTv fetchEmpty [seriesU] [itemU] =
      .ok ([], [trendShowDict seriesU (some 1)]) := by
  constructor
  · rfl
  · decide

/-- Claim C1, amended: an item with monitored=false never enters
FutureShow, AiredShow, NewShow (the upcoming-show step skips it), never
enters FutureMovie or ReleasedMovie (the movie step skips it), and never
enters TrendingMonitored; it may however still enter
TrendingRequestNeeded via the trending pass. -/
theorem C1_amended :
    (∀ (fetch : EpisodeFetch) (cfg : ShowsCfg) (s : Series),
        s.monitored = some false → stepUpcomingShow fetch cfg s = .ok none) ∧
    (∀ (fetch : EpisodeFetch) (rd off : Int) (now : DateTime) (s : Series),
        s.monitored = some false → stepNewShow fetch rd off now s = .ok none) ∧
    (∀ (cfg : MoviesCfg) (m : Movie),
        m.monitored = some false → stepUpcomingMovie cfg m = none) ∧
    (∀ (fetch : EpisodeFetch) (allSeries : List Series) (item : TrendItem)
        (s : Series),
        joinTrendingTv allSeries item = some s →
        s.monitored = some false →
        ∀ d, stepTrendingTv fetch allSeries item ≠ .ok (.monitoredNA d)) ∧
    (∀ (allMovies : List Movie) (item : TrendItem) (m : Movie),
        joinTrendingMovie allMovies item = some m →
        m.monitored = some false →
        ∀ d, stepTrendingMovie allMovies item ≠ .monitoredNA d) := by
  refine ⟨?_, ?_, ?_, ?_, ?_⟩
  · intro fetch cfg s h
    simp [stepUpcomingShow, h]
  · intro fetch rd off now s h
    simp [stepNewShow, h]
  · intro cfg m h
    simp [stepUpcomingMovie, h]
  · intro fetch allSeries item s hj hm d
    cases hf : fetch s.id with
    | error e => simp [stepTrendingTv, hj, hf, error_bind]
    | ok eps =>
      simp only [stepTrendingTv, hj, hf, ok_bind, hm]
      split <;> simp_all [pure, Except.pure]
  · intro allMovies item m hj hm d
    simp only [stepTrendingMovie, hj, hm]
    split <;> simp

/-- Claim C1, witness for the amended statement at concrete inputs. -/
theorem C1_witness :
    seriesU.monitored = some false ∧
    joinTrendingTv [seriesU] itemU = some seriesU ∧
    stepUpcomingShow fetchPilot cfgBase seriesU = .ok none ∧
    stepNewShow fetchPilot 7 0 0 seriesU = .ok none ∧
    stepUpcomingMovie mcfgBase movieU = none ∧
    stepTrendingTv fetchEmpty [seriesU] itemU ≠
      .ok (.monitoredNA (trendShowDict seriesU (some 1))) ∧
    joinTrendingMovie [movieU] itemM = some movieU ∧
    stepTrendingMovie [movieU] itemM ≠
      .monitoredNA (trendMovieDict movieU (some 1)) := by
  refine ⟨rfl, by decide, ?_, ?_, ?_, ?_, by decide, ?_⟩
  · exact C1_amended.1 fetchPilot cfgBase seriesU rfl
  · exact C1_amended.2.1 fetchPilot 7 0 0 seriesU rfl
  · exact C1_amended.2.2.1 mcfgBase movieU rfl
  · exact C1_amended.2.2.2.1 fetchEmpty [seriesU] itemU seriesU (by decide) rfl _
  · exact C1_amended.2.2.2.2 [movieU] itemM movieU (by decide) rfl _

/-- Claim C2: trending-source entries are classified against the tracker
snapshot exactly as the spec describes — any downloaded unit excludes the
entry entirely; monitored with a monitored episode (shows) and nothing
downloaded yields TrendingMonitored; unmonitored, monitored-with-no-
monitored-episode, or unjoined entries yield TrendingRequestNeeded. -/
theorem C2_trending_classification :
    (∀ (fetch : EpisodeFetch) (allSeries : List Series) (item : TrendItem)
        (s : Series) (eps : List Episode),
      joinTrendingTv allSeries item = some s →
      fetch s.id = .ok eps →
      (eps.any (fun ep => ep.hasFile.getD false) = true →
          stepTrendingTv fetch allSeries item = .ok .excluded) ∧
      (eps.any (fun ep => ep.hasFile.getD false) = false →
          s.monitored.getD false = true →
          eps.any (fun ep => ep.monitored.getD false) = true →
          stepTrendingTv fetch allSeries item =
            .ok (.monitoredNA (trendShowDict s item.rank))) ∧
      (eps.any (fun ep => ep.hasFile.getD false) = false →
          (s.monitored.getD false = false ∨
            eps.any (fun ep => ep.monitored.getD false) = false) →
          stepTrendingTv fetch allSeries item =
            .ok (.requestNeeded (trendShowDict s item.rank)))) ∧
    (∀ (fetch : EpisodeFetch) (allSeries : List Series) (item : TrendItem),
      joinTrendingTv allSeries item = none →
      stepTrendingTv fetch allSeries item =
        .ok (.requestNeeded (trendShowDictNotFound item))) ∧
    (∀ (allMovies : List Movie) (item : TrendItem) (m : Movie),
      joinTrendingMovie allMovies item = some m →
      (m.hasFile.getD false = true →
          stepTrendingMovie allMovies item = .excluded) ∧
      (m.hasFile.getD false = false → m.monitored.getD false = true →
          stepTrendingMovie allMovies item =
            .monitoredNA (trendMovieDict m item.rank)) ∧
      (m.hasFile.getD false = false → m.monitored.getD false = false →
          stepTrendingMovie allMovies item =
            .requestNeeded (trendMovieDict m item.rank))) ∧
    (∀ (allMovies : List Movie) (item : TrendItem),
      joinTrendingMovie allMovies item = none →
      stepTrendingMovie allMovies item =
        .requestNeeded (trendMovieDictNotFound item)) := by
  refine ⟨?_, ?_, ?_, ?_⟩
  · intro fetch allSeries item s eps hj hf
    refine ⟨?_, ?_, ?_⟩
    · intro hd
      simp only [stepTrendingTv, hj, hf, ok_bind]
      rw [if_pos hd]
      rfl
    · intro hd hm hme
      simp only [stepTrendingTv, hj, hf, ok_bind]
      rw [if_neg (by simp [hd]), if_neg (by simp [hm]), if_neg (by simp [hme])]
      rfl
    · intro hd hcase
      simp only [stepTrendingTv, hj, hf, ok_bind]
      rcases hcase with hm | hme
      · rw [if_neg (by simp [hd]), if_pos (by simp [hm])]
        rfl
      · by_cases hm : s.monitored.getD false = true
        · rw [if_neg (by simp [hd]), if_neg (by simp [hm]),
            if_pos (by simp [hme])]
          rfl
        · have hm2 : s.monitored.getD false = false := by
            simpa using hm
          rw [if_neg (by simp [hd]), if_pos (by simp [hm2])]
          rfl
  · intro fetch allSeries item hj
    simp [stepTrendingTv, hj, pure_eq_ok]
  · intro allMovies item m hj
    refine ⟨?_, ?_, ?_⟩
    · intro hd
      simp [stepTrendingMovie, hj, hd]
    · intro hd hm
      simp [stepTrendingMovie, hj, hd, hm]
    · intro hd hm
      simp [stepTrendingMovie, hj, hd, hm]
  · intro allMovies item hj
    simp [stepTrendingMovie, hj]

/-- Claim C2, witness: every classification case at concrete inputs. -/
theorem C2_witness :
    joinTrendingTv [seriesX] itemX = some seriesX ∧
    stepTrendingTv fetchFile [seriesX] itemX = .ok .excluded ∧
    stepTrendingTv fetchPilot [seriesX] itemX =
      .ok (.monitoredNA (trendShowDict seriesX (some 1))) ∧
    stepTrendingTv fetchEmpty [seriesU] itemU =
      .ok (.requestNeeded (trendShowDict seriesU (some 1))) ∧
    stepTrendingTv fetchEmpty [] itemX =
      .ok (.requestNeeded (trendShowDictNotFound itemX)) ∧
    stepTrendingMovie [movieU] itemM =
      .requestNeeded (trendMovieDict movieU (some 1)) ∧
    stepTrendingMovie [] itemM =
      .requestNeeded (trendMovieDictNotFound itemM) := by
  refine ⟨by decide, ?_, ?_, ?_, ?_, ?_, ?_⟩
  · exact (C2_trending_classification.1 fetchFile [seriesX] itemX seriesX
      [epHasFile] (by decide) rfl).1 (by decide)
  · exact (C2_trending_classification.1 fetchPilot [seriesX] itemX seriesX
      [epPilot] (by decide) rfl).2.1 (by decide) (by decide) (by decide)
  · exact (C2_trending_classification.1 fetchEmpty [seriesU] itemU seriesU
      [] (by decide) rfl).2.2 (by decide) (Or.inl (by decide))
  · exact C2_trending_classification.2.1 fetchEmpty [] itemX (by decide)
  · exact (C2_trending_classification.2.2.1 [movieU] itemM movieU
      (by decide)).2.2 (by decide) (by decide)
  · exact C2_trending_classification.2.2.2 [] itemM (by decide)

/-- Claim C3, counterexample: one monitored series with a monitored,
file-less S01E01 inside the window, over one tracker snapshot (the same
fetch oracle), is emitted both as `FutureShow` by `find_upcoming_shows`
and as `TrendingMonitored` by `process_trending_tv` — two output
categories at once. -/
theorem C3_counterexample :
    stepUpcomingShow fetchPilot cfgBase seriesX =
      .ok (some (true,
        { title := "X", tvdbId := some 7, path := some "/tv/X",
          imdbId := some "", year := some 2024, airDate := some 0 })) ∧
    stepTrendingTv fetchPilot [seriesX] itemX =
      .ok (.monitoredNA (trendShowDict seriesX (some 1))) ∧
    (trendShowDict seriesX (some 1)).tvdbId = some 7 ∧
    (trendShowDict seriesX (some 1)).title = "X" := by
  refine ⟨by decide, by decide, rfl, rfl⟩

/-- Claim C3, amended: within the builder the window show categories are
mutually exclusive — a series classified FutureShow or AiredShow is never
NewShow over the same snapshot, and a NewShow series joined by a trending
entry is excluded from both trending categories (its downloaded episode
disqualifies it).  However an item can appear simultaneously in a window
category and in a trending category. -/
theorem C3_amended :
    (∀ (fetch : EpisodeFetch) (cfg : ShowsCfg) (rd off : Int)
        (now : DateTime) (s : Series) (x : Bool × ShowDict),
      stepUpcomingShow fetch cfg s = .ok (some x) →
      stepNewShow fetch rd off now s = .ok none) ∧
    (∀ (fetch : EpisodeFetch) (rd off : Int) (now : DateTime)
        (allSeries : List Series) (item : TrendItem) (s : Series)
        (d : ShowDict),
      joinTrendingTv allSeries item = some s →
      stepNewShow fetch rd off now s = .ok (some d) →
      stepTrendingTv fetch allSeries item = .ok .excluded) := by
  constructor
  · intro fetch cfg rd off now s x hx
    by_cases h1 : s.monitored.getD true = true
    case neg =>
      exfalso
      have h1f : s.monitored.getD true = false := by simpa using h1
      simp [stepUpcomingShow, h1f] at hx
    case pos =>
      by_cases h2 : cfg.excludeTags.any (fun tag => s.tags.contains tag) = true
      · exfalso
        rcases List.any_eq_true.mp h2 with ⟨tag, htag, hmem⟩
        have hE : ∃ t ∈ cfg.excludeTags, t ∈ s.tags :=
          ⟨tag, htag, List.elem_iff.mp hmem⟩
        simp [stepUpcomingShow, h1, hE] at hx
      · have h2f : cfg.excludeTags.any (fun tag => s.tags.contains tag) = false := by
          simpa using h2
        cases hf : fetch s.id with
        | error e =>
          exfalso
          simp [stepUpcomingShow, h1, h2f, hf, error_bind] at hx
          split at hx <;> simp [pure_eq_ok] at hx
        | ok eps =>
          cases hfind : eps.find? (fun ep =>
              ep.seasonNumber == some 1 && ep.episodeNumber == some 1) with
          | none =>
            exfalso
            simp [stepUpcomingShow, h1, h2f, hf, ok_bind, hfind] at hx
            split at hx <;> simp [pure_eq_ok] at hx
          | some fe =>
            by_cases hfm : fe.monitored.getD false = true
            case neg =>
              exfalso
              have hfmf : fe.monitored.getD false = false := by simpa using hfm
              simp [stepUpcomingShow, h1, h2f, hf, ok_bind, hfind, hfmf] at hx
              split at hx <;> simp [pure_eq_ok] at hx
            case pos =>
              by_cases hff : fe.hasFile.getD false = true
              · exfalso
                simp [stepUpcomingShow, h1, h2f, hf, ok_bind, hfind, hfm, hff] at hx
                split at hx <;> simp [pure_eq_ok] at hx
              · have hff2 : fe.hasFile.getD false = false := by simpa using hff
                simp [stepNewShow, h1, hf, ok_bind, hfind, hff2, pure_eq_ok]
  · intro fetch rd off now allSeries item s d hj hns
    by_cases h1 : s.monitored.getD true = true
    case neg =>
      exfalso
      have h1f : s.monitored.getD true = false := by simpa using h1
      simp [stepNewShow, h1f] at hns
    case pos =>
      cases hf : fetch s.id with
      | error e =>
        exfalso
        simp [stepNewShow, h1, hf, error_bind] at hns
      | ok eps =>
        cases hfind : eps.find? (fun ep =>
            ep.seasonNumber == some 1 && ep.episodeNumber == some 1) with
        | none =>
          exfalso
          simp [stepNewShow, h1, hf, ok_bind, hfind, pure_eq_ok] at hns
        | some fe =>
          by_cases hff : fe.hasFile.getD false = true
          · have hmem : fe ∈ eps := List.mem_of_find?_eq_some hfind
            have hany : eps.any (fun ep => ep.hasFile.getD false) = true :=
              List.any_eq_true.mpr ⟨fe, hmem, hff⟩
            simp only [stepTrendingTv, hj, hf, ok_bind]
            rw [if_pos hany]
            rfl
          · exfalso
            have hff2 : fe.hasFile.getD false = false := by simpa using hff
            simp [stepNewShow, h1, hf, ok_bind, hfind, hff2, pure_eq_ok] at hns

/-- Claim C3, witness for the amended statement at concrete inputs. -/
theorem C3_witness :
    stepUpcomingShow fetchPilot cfgBase seriesX =
      .ok (some (true,
        { title := "X", tvdbId := some 7, path := some "/tv/X",
          imdbId := some "", year := some 2024, airDate := some 0 })) ∧
    stepNewShow fetchPilot 7 0 0 seriesX = .ok none ∧
    joinTrendingTv [seriesX] itemX = some seriesX ∧
    stepNewShow fetchFile 7 0 200 seriesX =
      .ok (some
        { title := "X", tvdbId := some 7, path := some "/tv/X",
          imdbId := some "", year := some 2024, airDate := some 0 }) ∧
    stepTrendingTv fetchFile [seriesX] itemX = .ok .excluded := by
  refine ⟨by decide, ?_, by decide, by decide, ?_⟩
  · exact C3_amended.1 fetchPilot cfgBase 7 0 0 seriesX
      (true,
        { title := "X", tvdbId := some 7, path := some "/tv/X",
          imdbId := some "", year := some 2024, airDate := some 0 })
      (by decide)
  · exact C3_amended.2 fetchFile 7 0 200 [seriesX] itemX seriesX
      { title := "X", tvdbId := some 7, path := some "/tv/X",
        imdbId := some "", year := some 2024, airDate := some 0 }
      (by decide) (by decide)

/-- Claim C5, counterexample: a negative `future_days_upcoming_shows` is
not rejected anywhere — `load_config` only parses YAML and `main` reads
the value with `config.get`, so the desired-state computation simply runs
with the negative window (here returning an empty desired state instead
of a configuration error). -/
theorem C5_counterexample :
    cfgNegDays "future_days_upcoming_shows" = some (-5) ∧
    (tvShowsCfgOfConfig cfgNegDays 0 [] false 0).futureDays = -5 ∧
    findUpcomingShows fetchPilot
      (tvShowsCfgOfConfig cfgNegDays 0 [] false 0) [seriesX] = .ok ([], []) := by
  refine ⟨rfl, rfl, by decide⟩

/-- Claim C5, amended: negative day counts are not validated; the run
proceeds, using the negative show window exactly as configured, and a
negative `past_days_upcoming_movies` behaves like the disabled value 0
(the lower bound only activates when the value is positive). -/
theorem C5_amended :
    (∀ (cfg : IntConfig) (n off : Int) (tags : List Int) (fot : Bool)
        (now : DateTime) (fetch : EpisodeFetch) (allSeries : List Series),
      cfg "future_days_upcoming_shows" = some n → n < 0 →
      findUpcomingShows fetch (tvShowsCfgOfConfig cfg off tags fot now)
          allSeries =
        findUpcomingShows fetch
          { futureDays := n, utcOffsetMin := off, excludeTags := tags,
            futureOnlyTv := fot, now := now } allSeries) ∧
    (∀ (cfg : MoviesCfg) (m : Movie), cfg.pastDays < 0 →
      stepUpcomingMovie cfg m =
        stepUpcomingMovie { cfg with pastDays := 0 } m) := by
  constructor
  · intro cfg n off tags fot now fetch allSeries hk hn
    have hc : tvShowsCfgOfConfig cfg off tags fot now =
        { futureDays := n, utcOffsetMin := off, excludeTags := tags,
          futureOnlyTv := fot, now := now } := by
      simp [tvShowsCfgOfConfig, cfgGetI, hk]
    rw [hc]
  · intro cfg m h
    have h1 : ¬(cfg.pastDays > 0) := by omega
    have h2 : ¬((0:Int) > 0) := by omega
    simp [stepUpcomingMovie, h1, h2]

/-- Claim C5, witness for the amended statement at concrete inputs. -/
theorem C5_witness :
    cfgNegDays "future_days_upcoming_shows" = some (-5) ∧
    ((-5 : Int) < 0) ∧
    findUpcomingShows fetchPilot
        (tvShowsCfgOfConfig cfgNegDays 0 [] false 0) [seriesX] =
      findUpcomingShows fetchPilot
        { futureDays := -5, utcOffsetMin := 0, excludeTags := [],
          futureOnlyTv := false, now := 0 } [seriesX] ∧
    ({ mcfgBase with pastDays := -3 } : MoviesCfg).pastDays < 0 ∧
    stepUpcomingMovie { mcfgBase with pastDays := -3 } movieNoMon =
      stepUpcomingMovie { mcfgBase with pastDays := 0 } movieNoMon := by
  refine ⟨rfl, by decide, ?_, by decide, ?_⟩
  · exact C5_amended.1 cfgNegDays (-5) 0 [] false 0 fetchPilot [seriesX]
      rfl (by decide)
  · exact C5_amended.2 { mcfgBase with pastDays := -3 } movieNoMon (by decide)

/-- Claim C6: when the TV-tracker fetch fails during desired-state
building inside cleanup, cleanup evicts nothing; when a per-folder
episode fetch fails mid-scan, that folder and all remaining folders are
abandoned; and the movie pass of `main` is computed independently of the
TV pass, so it still runs after a TV failure. -/
theorem C6_tv_failure_isolation :
    (∀ (fetch : EpisodeFetch) (allSeries : List Series) (cfg : ShowsCfg)
        (tm trn : List ShowDict) (folders : List TvFolder),
      findUpcomingShows fetch cfg allSeries = .error () →
      cleanupTvContent fetch allSeries cfg tm trn folders = []) ∧
    (∀ (fetch : EpisodeFetch) (ctx : TvCleanupCtx) (allSeries : List Series)
        (folder : TvFolder) (rest : List TvFolder) (s : Series)
        (file : String) (files : List String),
      folder.hasSeason00 = true →
      folder.isTrending = false →
      dictLookup seriesPathKey allSeries folder.dirPath = some s →
      ctx.upcomingTitles.contains s.title = false →
      folder.trailerFiles = file :: files →
      fetch s.id = .error () →
      cleanupFolders fetch ctx allSeries (folder :: rest) = []) ∧
    (∀ (fetch : EpisodeFetch) (allSeries : List Series) (tvCfg : ShowsCfg)
        (rd : Int) (tvItems : List TrendItem) (tvFolders : List TvFolder)
        (allMovies : List Movie) (mCfg : MoviesCfg)
        (mItems : List TrendItem) (mFolders : List MovieFolder),
      (runMain fetch allSeries tvCfg rd tvItems tvFolders allMovies mCfg
          mItems mFolders).movies = moviePhase allMovies mCfg mItems mFolders) := by
  refine ⟨?_, ?_, ?_⟩
  · intro fetch allSeries cfg tm trn folders h
    simp [cleanupTvContent, h]
  · intro fetch ctx allSeries folder rest s file files hS hT hL hC hF hE
    simp only [cleanupFolders, hS, Bool.not_true, hL]
    simp only [cleanupFolderFiles, hF, tvFileDecision, hT, hC, hE, error_bind]
    simp
  · intro fetch allSeries tvCfg rd tvItems tvFolders allMovies mCfg mItems mFolders
    unfold runMain
    cases htv : tvPhase fetch allSeries tvCfg rd tvItems tvFolders <;> rfl

/-- Claim C6, witness at concrete inputs with a failing oracle. -/
theorem C6_witness :
    findUpcomingShows fetchErr cfgBase [seriesX] = .error () ∧
    cleanupTvContent fetchErr [seriesX] cfgBase [] [] [folderX] = [] ∧
    dictLookup seriesPathKey [seriesX] folderX.dirPath = some seriesX ∧
    fetchErr seriesX.id = .error () ∧
    cleanupFolders fetchErr ctxC [seriesX] [folderX] = [] ∧
    (runMain fetchErr [seriesX] cfgBase 7 [itemX] [folderX] [movieU]
        mcfgBase [itemM] []).movies = moviePhase [movieU] mcfgBase [itemM] [] := by
  refine ⟨by decide, ?_, by decide, rfl, ?_, ?_⟩
  · exact C6_tv_failure_isolation.1 fetchErr [seriesX] cfgBase [] [] [folderX]
      (by decide)
  · exact C6_tv_failure_isolation.2.1 fetchErr ctxC [seriesX] folderX []
      seriesX "X.S00E00.Trailer.mkv" [] rfl rfl (by decide) (by decide) rfl rfl
  · exact C6_tv_failure_isolation.2.2 fetchErr [seriesX] cfgBase 7 [itemX]
      [folderX] [movieU] mcfgBase [itemM] []

/-- Claim C8, counterexample: with `future_only_tv=true`, a zero-day
window and a one-hour UTC offset, a show whose adjusted air date equals
exactly `now + future_days_upcoming_shows` is NOT included: it falls in
the aired branch (`airDate < now_local`) which `future_only_tv`
suppresses.  The inclusion half of the claim therefore does not hold for
every configuration. -/
theorem C8_counterexample :
    convertUtcToLocal (-60) cfgFot.utcOffsetMin =
      cfgFot.now + cfgFot.futureDays * minutesPerDay ∧
    epBoundary.monitored.getD false = true ∧
    epBoundary.hasFile.getD false = false ∧
    stepUpcomingShow fetchBoundary cfgFot seriesX = .ok none := by
  refine ⟨by decide, rfl, rfl, by decide⟩

/-- Claim C8, amended: for a monitored series passing the S01E01 filters,
with airDate the S01E01 air date adjusted by the UTC offset: when airDate
equals exactly `now + future_days_upcoming_shows` the show is included
provided `future_only_tv` is false (for every UTC offset), and when
airDate is one day later the show is excluded unconditionally. -/
theorem C8_amended :
    ∀ (fetch : EpisodeFetch) (cfg : ShowsCfg) (s : Series)
      (eps : List Episode) (fe : Episode) (airUtc : DateTime),
      s.monitored.getD true = true →
      cfg.excludeTags.any (fun tag => s.tags.contains tag) = false →
      fetch s.id = .ok eps →
      eps.find? (fun ep => ep.seasonNumber == some 1 &&
        ep.episodeNumber == some 1) = some fe →
      fe.monitored.getD false = true →
      fe.hasFile.getD false = false →
      fe.airDateUtc = some airUtc →
      ((airUtc + cfg.utcOffsetMin = cfg.now + cfg.futureDays * minutesPerDay →
          cfg.futureOnlyTv = false →
          ∃ b d, stepUpcomingShow fetch cfg s = .ok (some (b, d))) ∧
       (airUtc + cfg.utcOffsetMin =
          cfg.now + cfg.futureDays * minutesPerDay + minutesPerDay →
          stepUpcomingShow fetch cfg s = .ok none)) := by
  intro fetch cfg s eps fe airUtc h1 h2 hf hfind hfm hff hair
  constructor
  · intro hb hfot
    simp only [stepUpcomingShow]
    rw [if_neg (by simp [h1]), if_neg (by rw [h2]; decide), hf, ok_bind, hfind]
    dsimp only
    rw [if_neg (by simp [hfm]), if_neg (by simp [hff]), hair]
    dsimp only
    rw [if_pos (by simp [convertUtcToLocal, hb])]
    by_cases hge : cfg.now + cfg.utcOffsetMin ≤ convertUtcToLocal airUtc cfg.utcOffsetMin
    · refine ⟨true,
        { title := s.title, tvdbId := s.tvdbId,
          path := some (s.path.getD ""), imdbId := some (s.imdbId.getD ""),
          year := s.year,
          airDate := some (dateOf (convertUtcToLocal airUtc cfg.utcOffsetMin)) }, ?_⟩
      rw [if_pos hge]
      rfl
    · refine ⟨false,
        { title := s.title, tvdbId := s.tvdbId,
          path := some (s.path.getD ""), imdbId := some (s.imdbId.getD ""),
          year := s.year,
          airDate := some (dateOf (convertUtcToLocal airUtc cfg.utcOffsetMin)) }, ?_⟩
      rw [if_neg hge, if_pos (by simp [hfot])]
      rfl
  · intro hb
    simp only [stepUpcomingShow]
    rw [if_neg (by simp [h1]), if_neg (by rw [h2]; decide), hf, ok_bind, hfind]
    dsimp only
    rw [if_neg (by simp [hfm]), if_neg (by simp [hff]), hair]
    dsimp only
    have hnle : ¬ (convertUtcToLocal airUtc cfg.utcOffsetMin ≤
        cfg.now + cfg.futureDays * minutesPerDay) := by
      unfold convertUtcToLocal
      rw [hb]
      unfold minutesPerDay
      linarith
    rw [if_neg hnle]
    rfl

/-- Claim C8, witness at the exact boundary and one day past it. -/
theorem C8_witness :
    (43200 : Int) + cfgBase.utcOffsetMin =
      cfgBase.now + cfgBase.futureDays * minutesPerDay ∧
    cfgBase.futureOnlyTv = false ∧
    (∃ b d, stepUpcomingShow fetchCutoff cfgBase seriesX = .ok (some (b, d))) ∧
    (44640 : Int) + cfgBase.utcOffsetMin =
      cfgBase.now + cfgBase.futureDays * minutesPerDay + minutesPerDay ∧
    stepUpcomingShow fetchPast cfgBase seriesX = .ok none := by
  refine ⟨by decide, rfl, ?_, by decide, ?_⟩
  · exact (C8_amended fetchCutoff cfgBase seriesX [epAtCutoff] epAtCutoff
      43200 rfl rfl rfl (by decide) rfl rfl rfl).1 (by decide) rfl
  · exact (C8_amended fetchPast cfgBase seriesX [epPastCutoff] epPastCutoff
      44640 rfl rfl rfl (by decide) rfl rfl rfl).2 (by decide)

/-- Claim C9: with `include_inCinemas` the selected release date is the
chronologically earliest of the present digital/physical/cinema dates
(and is one of them); without it, digital is selected if present, else
physical, the cinema date never; and a movie passing the
monitored/file/tag filters is skipped when no applicable date exists. -/
theorem C9_release_selection :
    (∀ (m : Movie), pickReleaseDate true m = none ↔ validReleaseDates m = []) ∧
    (∀ (m : Movie) (p : Int × String), pickReleaseDate true m = some p →
       p ∈ validReleaseDates m ∧ ∀ q ∈ validReleaseDates m, p.1 ≤ q.1) ∧
    (∀ (m : Movie) (d : Int), m.digitalRelease = some d →
       pickReleaseDate false m = some (d, "Digital")) ∧
    (∀ (m : Movie) (d : Int), m.digitalRelease = none →
       m.physicalRelease = some d →
       pickReleaseDate false m = some (d, "Physical")) ∧
    (∀ (m : Movie), m.digitalRelease = none → m.physicalRelease = none →
       pickReleaseDate false m = none) ∧
    (∀ (m : Movie) (d : Int), pickReleaseDate false m ≠ some (d, "Cinema")) ∧
    (∀ (cfg : MoviesCfg) (m : Movie),
       m.monitored.getD false = true → m.hasFile.getD false = false →
       cfg.excludeTags.any (fun tag => m.tags.contains tag) = false →
       pickReleaseDate cfg.includeInCinemas m = none →
       stepUpcomingMovie cfg m = none) := by
  refine ⟨?_, ?_, ?_, ?_, ?_, ?_, ?_⟩
  · intro m
    simp only [pickReleaseDate, if_true]
    cases hs : List.insertionSort dateLe (validReleaseDates m) with
    | nil =>
      simp only [true_iff]
      have := List.perm_insertionSort dateLe (validReleaseDates m)
      rw [hs] at this
      exact (List.Perm.nil_eq this).symm
    | cons best rest =>
      simp only [reduceCtorEq, false_iff]
      intro hv
      rw [hv] at hs
      simp [List.insertionSort] at hs
  · intro m p hp
    simp only [pickReleaseDate, if_true] at hp
    cases hs : List.insertionSort dateLe (validReleaseDates m) with
    | nil => rw [hs] at hp; cases hp
    | cons best rest =>
      rw [hs] at hp
      have hpb : best = p := by
        simpa using hp
      subst hpb
      constructor
      · exact (List.mem_insertionSort dateLe).mp (hs ▸ List.mem_cons_self best rest)
      · intro q hq
        have hqs : q ∈ List.insertionSort dateLe (validReleaseDates m) :=
          (List.mem_insertionSort dateLe).mpr hq
        rw [hs] at hqs
        rcases List.mem_cons.mp hqs with h | h
        · exact le_of_eq (congrArg Prod.fst h.symm)
        · have hsorted := List.sorted_insertionSort dateLe (validReleaseDates m)
          rw [hs] at hsorted
          exact List.rel_of_sorted_cons hsorted q h
  · intro m d hd
    simp [pickReleaseDate, hd]
  · intro m d hd hp
    simp [pickReleaseDate, hd, hp]
  · intro m hd hp
    simp [pickReleaseDate, hd, hp]
  · intro m d
    simp only [pickReleaseDate, if_false]
    cases hd : m.digitalRelease with
    | some v => simp
    | none =>
      cases hp : m.physicalRelease with
      | some v => simp
      | none => simp
  · intro cfg m hm hh ht hpick
    simp only [stepUpcomingMovie]
    rw [if_neg (by simp [hm]), if_neg (by simp [hh]),
      if_neg (by rw [ht]; decide), hpick]

/-- Claim C9, witness covering every selection case concretely. -/
theorem C9_witness :
    validReleaseDates movieNoDates = [] ∧
    pickReleaseDate true movieNoDates = none ∧
    pickReleaseDate true movieAll = some (20, "Physical") ∧
    (20, "Physical") ∈ validReleaseDates movieAll ∧
    ((20 : Int) ≤ 50) ∧
    pickReleaseDate false movieAll = some (50, "Digital") ∧
    pickReleaseDate false movieDP = some (20, "Physical") ∧
    pickReleaseDate false movieNoDates = none ∧
    pickReleaseDate false movieAll ≠ some (30, "Cinema") ∧
    stepUpcomingMovie mcfgBase movieNoDates = none := by
  refine ⟨rfl, ?_, by decide, ?_, ?_, ?_, ?_, ?_, ?_, ?_⟩
  · exact (C9_release_selection.1 movieNoDates).mpr rfl
  · exact ((C9_release_selection.2.1 movieAll (20, "Physical")) (by decide)).1
  · exact ((C9_release_selection.2.1 movieAll (20, "Physical")) (by decide)).2
      (50, "Digital") (by decide)
  · exact C9_release_selection.2.2.1 movieAll 50 rfl
  · exact C9_release_selection.2.2.2.1 movieDP 20 rfl rfl
  · exact C9_release_selection.2.2.2.2.1 movieNoDates rfl rfl
  · exact C9_release_selection.2.2.2.2.2.1 movieAll 30
  · exact C9_release_selection.2.2.2.2.2.2 mcfgBase movieNoDates rfl rfl rfl
      (by decide)

end UMTK
